import Mathlib

/-!
Shallow embedding of the request-handling core of a YouTube-clone backend
(Express + MongoDB).  Ids (Mongo ObjectIds) are modelled as naturals, JS
numbers stored in counter fields as integers, Mongo collections as lists of
records.  Each handler below is translated from the corresponding route in
the backend source (`backend/routes/*.js`, `backend/middleware/auth.js`),
after the express-validator stage: the modelled function is the handler body
that runs once input validation has passed.
-/

namespace YtClone

/-- A user id (Mongo ObjectId of a User document). -/
abbrev UserId := Nat

/-- A channel id (Mongo ObjectId of a Channel document). -/
abbrev ChannelId := Nat

/-- A video id (Mongo ObjectId of a Video document). -/
abbrev VideoId := Nat

/-- The Video document, from `backend/models/Video.js`.  Counter fields
(`views`, `likes`, `dislikes`) are JS numbers, modelled as integers;
`userLikes`/`userDislikes` are arrays of user ObjectIds. -/
structure Video where
  vid : VideoId
  title : String
  description : String
  videoUrl : String
  thumbnailUrl : String
  channelId : ChannelId
  uploader : UserId
  views : Int
  likes : Int
  dislikes : Int
  userLikes : List UserId
  userDislikes : List UserId
  category : String
  duration : String
  tags : List String
  deriving Repr, DecidableEq

/-- JS `Array.prototype.indexOf` on an id array: the index of the first
occurrence, or `-1` when the element is absent (Mongoose casts the ids, so
comparison is by id value). -/
def jsIndexOf (l : List UserId) (x : UserId) : Int :=
  if x ∈ l then (l.indexOf x : Int) else -1

/-- JS `arr.splice(i, 1)`: remove the single element at index `i`. -/
def spliceOne (l : List UserId) (i : Int) : List UserId :=
  l.eraseIdx i.toNat

/-- Handler body of `POST /api/videos/:id/like` (`backend/routes/videos.js`)
on the video it found: reads `action` from the body, computes the caller's
index in `userLikes`/`userDislikes` up front, then either removes an
existing like (`action === 'remove'`) or adds a like and removes any
existing dislike.  Decrements clamp at zero via `Math.max(0, n - 1)`. -/
def likeHandler (action : String) (userId : UserId) (video : Video) : Video :=
  let userLikeIndex := jsIndexOf video.userLikes userId
  let userDislikeIndex := jsIndexOf video.userDislikes userId
  if action = "remove" then
    if userLikeIndex > -1 then
      { video with
          userLikes := spliceOne video.userLikes userLikeIndex,
          likes := max 0 (video.likes - 1) }
    else
      video
  else
    let video1 :=
      if userLikeIndex = -1 then
        { video with
            userLikes := video.userLikes ++ [userId],
            likes := video.likes + 1 }
      else
        video
    if userDislikeIndex > -1 then
      { video1 with
          userDislikes := spliceOne video1.userDislikes userDislikeIndex,
          dislikes := max 0 (video1.dislikes - 1) }
    else
      video1

/-- Handler body of `POST /api/videos/:id/dislike` (`backend/routes/videos.js`),
symmetric to the like handler: `action === 'remove'` removes an existing
dislike, anything else adds a dislike and removes any existing like. -/
def dislikeHandler (action : String) (userId : UserId) (video : Video) : Video :=
  let userDislikeIndex := jsIndexOf video.userDislikes userId
  let userLikeIndex := jsIndexOf video.userLikes userId
  if action = "remove" then
    if userDislikeIndex > -1 then
      { video with
          userDislikes := spliceOne video.userDislikes userDislikeIndex,
          dislikes := max 0 (video.dislikes - 1) }
    else
      video
  else
    let video1 :=
      if userDislikeIndex = -1 then
        { video with
            userDislikes := video.userDislikes ++ [userId],
            dislikes := video.dislikes + 1 }
      else
        video
    if userLikeIndex > -1 then
      { video1 with
          userLikes := spliceOne video1.userLikes userLikeIndex,
          likes := max 0 (video1.likes - 1) }
    else
      video1

/-- The per-video engagement invariant: neither membership array has
duplicates, and no user id occurs in both. -/
def EngagementInv (v : Video) : Prop :=
  v.userLikes.Nodup ∧ v.userDislikes.Nodup ∧
    ∀ x, x ∈ v.userLikes → x ∉ v.userDislikes

/-- Video states reachable through the like/dislike endpoints, starting from
any video whose membership arrays carry the model defaults (empty arrays,
`backend/models/Video.js`). -/
inductive EngagementReachable : Video → Prop where
  | init (v : Video) : v.userLikes = [] → v.userDislikes = [] →
      EngagementReachable v
  | like (action : String) (u : UserId) {v : Video} :
      EngagementReachable v → EngagementReachable (likeHandler action u v)
  | dislike (action : String) (u : UserId) {v : Video} :
      EngagementReachable v → EngagementReachable (dislikeHandler action u v)

theorem jsIndexOf_pos_iff {l : List UserId} {x : UserId} :
    jsIndexOf l x > -1 ↔ x ∈ l := by
  unfold jsIndexOf
  by_cases h : x ∈ l
  · simp only [h, if_true, gt_iff_lt, iff_true]
    omega
  · simp [h]

theorem jsIndexOf_eq_neg_one_iff {l : List UserId} {x : UserId} :
    jsIndexOf l x = -1 ↔ x ∉ l := by
  unfold jsIndexOf
  by_cases h : x ∈ l
  · rw [if_pos h]
    constructor
    · intro hc
      omega
    · intro hc
      exact absurd h hc
  · simp [h]

theorem spliceOne_jsIndexOf {l : List UserId} {x : UserId} (h : x ∈ l) :
    spliceOne l (jsIndexOf l x) = l.erase x := by
  simp [spliceOne, jsIndexOf, h]

theorem likeHandler_remove_char (u : UserId) (v : Video) :
    likeHandler "remove" u v =
      if u ∈ v.userLikes then
        { v with userLikes := v.userLikes.erase u,
                 likes := max 0 (v.likes - 1) }
      else v := by
  unfold likeHandler
  by_cases h : u ∈ v.userLikes
  · simp [h, jsIndexOf_pos_iff.2 h, spliceOne_jsIndexOf]
  · simp [h]
    intro hc
    exact absurd (jsIndexOf_pos_iff.1 hc) h

theorem likeHandler_add_char (a : String) (u : UserId) (v : Video)
    (ha : a ≠ "remove") :
    likeHandler a u v =
      { v with
          userLikes :=
            if u ∈ v.userLikes then v.userLikes else v.userLikes ++ [u],
          likes := if u ∈ v.userLikes then v.likes else v.likes + 1,
          userDislikes :=
            if u ∈ v.userDislikes then v.userDislikes.erase u
            else v.userDislikes,
          dislikes :=
            if u ∈ v.userDislikes then max 0 (v.dislikes - 1)
            else v.dislikes } := by
  unfold likeHandler
  by_cases hl : u ∈ v.userLikes <;> by_cases hd : u ∈ v.userDislikes <;>
    simp [ha, hl, hd, jsIndexOf_pos_iff, jsIndexOf_eq_neg_one_iff,
      spliceOne_jsIndexOf]

theorem dislikeHandler_remove_char (u : UserId) (v : Video) :
    dislikeHandler "remove" u v =
      if u ∈ v.userDislikes then
        { v with userDislikes := v.userDislikes.erase u,
                 dislikes := max 0 (v.dislikes - 1) }
      else v := by
  unfold dislikeHandler
  by_cases h : u ∈ v.userDislikes
  · simp [h, jsIndexOf_pos_iff.2 h, spliceOne_jsIndexOf]
  · simp [h]
    intro hc
    exact absurd (jsIndexOf_pos_iff.1 hc) h

theorem dislikeHandler_add_char (a : String) (u : UserId) (v : Video)
    (ha : a ≠ "remove") :
    dislikeHandler a u v =
      { v with
          userLikes :=
            if u ∈ v.userLikes then v.userLikes.erase u else v.userLikes,
          likes := if u ∈ v.userLikes then max 0 (v.likes - 1) else v.likes,
          userDislikes :=
            if u ∈ v.userDislikes then v.userDislikes
            else v.userDislikes ++ [u],
          dislikes :=
            if u ∈ v.userDislikes then v.dislikes
            else v.dislikes + 1 } := by
  unfold dislikeHandler
  by_cases hl : u ∈ v.userLikes <;> by_cases hd : u ∈ v.userDislikes <;>
    simp [ha, hl, hd, jsIndexOf_pos_iff, jsIndexOf_eq_neg_one_iff,
      spliceOne_jsIndexOf]

theorem likeHandler_inv (a : String) (u : UserId) (v : Video)
    (h : EngagementInv v) : EngagementInv (likeHandler a u v) := by
  obtain ⟨hL, hD, hLD⟩ := h
  by_cases ha : a = "remove"
  · subst ha
    rw [likeHandler_remove_char]
    by_cases hm : u ∈ v.userLikes
    · simp only [hm, if_true]
      refine ⟨hL.erase u, hD, ?_⟩
      intro x hx
      exact hLD x (List.mem_of_mem_erase hx)
    · simp only [hm, if_false]
      exact ⟨hL, hD, hLD⟩
  · rw [likeHandler_add_char a u v ha]
    by_cases hm : u ∈ v.userLikes <;> by_cases hd : u ∈ v.userDislikes <;>
        simp only [hm, hd, if_true, if_false]
    · exact ⟨hL, hD.erase u, fun x hx hx' =>
        hLD x hx (List.mem_of_mem_erase hx')⟩
    · exact ⟨hL, hD, hLD⟩
    · refine ⟨?_, hD.erase u, ?_⟩
      · exact List.nodup_append.2 ⟨hL, List.nodup_singleton u,
          fun x hx hx' => hm (List.mem_singleton.1 hx' ▸ hx)⟩
      · intro x hx hx'
        rcases List.mem_append.1 hx with hxl | hxu
        · exact hLD x hxl (List.mem_of_mem_erase hx')
        · exact hD.not_mem_erase (List.mem_singleton.1 hxu ▸ hx')
    · refine ⟨?_, hD, ?_⟩
      · exact List.nodup_append.2 ⟨hL, List.nodup_singleton u,
          fun x hx hx' => hm (List.mem_singleton.1 hx' ▸ hx)⟩
      · intro x hx hx'
        rcases List.mem_append.1 hx with hxl | hxu
        · exact hLD x hxl hx'
        · exact hd (List.mem_singleton.1 hxu ▸ hx')

theorem dislikeHandler_inv (a : String) (u : UserId) (v : Video)
    (h : EngagementInv v) : EngagementInv (dislikeHandler a u v) := by
  obtain ⟨hL, hD, hLD⟩ := h
  by_cases ha : a = "remove"
  · subst ha
    rw [dislikeHandler_remove_char]
    by_cases hm : u ∈ v.userDislikes
    · simp only [hm, if_true]
      refine ⟨hL, hD.erase u, ?_⟩
      intro x hx hx'
      exact hLD x hx (List.mem_of_mem_erase hx')
    · simp only [hm, if_false]
      exact ⟨hL, hD, hLD⟩
  · rw [dislikeHandler_add_char a u v ha]
    by_cases hm : u ∈ v.userDislikes <;> by_cases hl : u ∈ v.userLikes <;>
        simp only [hm, hl, if_true, if_false]
    · exact ⟨hL.erase u, hD, fun x hx =>
        hLD x (List.mem_of_mem_erase hx)⟩
    · exact ⟨hL, hD, hLD⟩
    · refine ⟨hL.erase u, ?_, ?_⟩
      · exact List.nodup_append.2 ⟨hD, List.nodup_singleton u,
          fun x hx hx' => hm (List.mem_singleton.1 hx' ▸ hx)⟩
      · intro x hx hx'
        rcases List.mem_append.1 hx' with hxd | hxu
        · exact hLD x (List.mem_of_mem_erase hx) hxd
        · exact hL.not_mem_erase (List.mem_singleton.1 hxu ▸ hx)
    · refine ⟨hL, ?_, ?_⟩
      · exact List.nodup_append.2 ⟨hD, List.nodup_singleton u,
          fun x hx hx' => hm (List.mem_singleton.1 hx' ▸ hx)⟩
      · intro x hx hx'
        rcases List.mem_append.1 hx' with hxd | hxu
        · exact hLD x hx hxd
        · exact hl (List.mem_singleton.1 hxu ▸ hx)

theorem engagementReachable_inv {v : Video} (h : EngagementReachable v) :
    EngagementInv v := by
  induction h with
  | init w hL hD =>
    refine ⟨?_, ?_, ?_⟩ <;> simp [hL, hD]
  | like a u _ ih => exact likeHandler_inv a u _ ih
  | dislike a u _ ih => exact dislikeHandler_inv a u _ ih

theorem mem_userLikes_after_like (u : UserId) (v : Video) :
    u ∈ (likeHandler "like" u v).userLikes := by
  rw [likeHandler_add_char "like" u v (by decide)]
  by_cases hm : u ∈ v.userLikes <;> simp [hm]

theorem not_mem_userDislikes_after_like (u : UserId) (v : Video)
    (hD : v.userDislikes.Nodup) :
    u ∉ (likeHandler "like" u v).userDislikes := by
  rw [likeHandler_add_char "like" u v (by decide)]
  by_cases hd : u ∈ v.userDislikes
  · simpa [hd] using hD.not_mem_erase
  · simp [hd]

/-- A sample video document holding the schema defaults of
`backend/models/Video.js` in the engagement fields. -/
def sampleVideo : Video :=
  { vid := 1, title := "intro", description := "first video",
    videoUrl := "https://cdn.example/v1", thumbnailUrl := "https://cdn.example/t1",
    channelId := 2, uploader := 3, views := 0, likes := 0, dislikes := 0,
    userLikes := [], userDislikes := [], category := "Gaming",
    duration := "02:00", tags := [] }

/-- C1: after a successful like with action `"like"`, the caller occurs
exactly once in `userLikes` and not in `userDislikes`; after a subsequent
dislike with action `"dislike"`, the caller occurs exactly once in
`userDislikes` and not in `userLikes`; and in every state reachable through
the like/dislike handlers no user id occurs in both arrays of the same
video. -/
theorem like_then_dislike_exclusive (v : Video)
    (hv : EngagementReachable v) (u : UserId) :
    ((likeHandler "like" u v).userLikes.count u = 1 ∧
      u ∉ (likeHandler "like" u v).userDislikes) ∧
    ((dislikeHandler "dislike" u (likeHandler "like" u v)).userDislikes.count u
        = 1 ∧
      u ∉ (dislikeHandler "dislike" u (likeHandler "like" u v)).userLikes) ∧
    (∀ w, EngagementReachable w → ∀ x, x ∈ w.userLikes → x ∉ w.userDislikes)
    := by
  obtain ⟨hL, hD, hLD⟩ := engagementReachable_inv hv
  have hv1 : EngagementReachable (likeHandler "like" u v) :=
    EngagementReachable.like "like" u hv
  obtain ⟨hL1, hD1, hLD1⟩ := engagementReachable_inv hv1
  refine ⟨⟨?_, ?_⟩, ⟨?_, ?_⟩, ?_⟩
  · exact List.count_eq_one_of_mem hL1 (mem_userLikes_after_like u v)
  · exact not_mem_userDislikes_after_like u v hD
  · have hnd : u ∉ (likeHandler "like" u v).userDislikes :=
      not_mem_userDislikes_after_like u v hD
    rw [dislikeHandler_add_char "dislike" u _ (by decide)]
    simp [hnd, List.count_append, List.count_eq_zero_of_not_mem hnd]
  · have hml : u ∈ (likeHandler "like" u v).userLikes :=
      mem_userLikes_after_like u v
    rw [dislikeHandler_add_char "dislike" u _ (by decide)]
    simp only [hml, if_true]
    exact hL1.not_mem_erase
  · intro w hw x hx
    exact (engagementReachable_inv hw).2.2 x hx

/-- Witness for C1 at a concrete reachable video and user id 5. -/
theorem like_then_dislike_exclusive_witness :
    EngagementReachable sampleVideo ∧
    (((likeHandler "like" 5 sampleVideo).userLikes.count 5 = 1 ∧
      5 ∉ (likeHandler "like" 5 sampleVideo).userDislikes) ∧
    ((dislikeHandler "dislike" 5
          (likeHandler "like" 5 sampleVideo)).userDislikes.count 5 = 1 ∧
      5 ∉ (dislikeHandler "dislike" 5
          (likeHandler "like" 5 sampleVideo)).userLikes) ∧
    (∀ w, EngagementReachable w → ∀ x, x ∈ w.userLikes →
      x ∉ w.userDislikes)) :=
  ⟨EngagementReachable.init sampleVideo rfl rfl,
    like_then_dislike_exclusive sampleVideo
      (EngagementReachable.init sampleVideo rfl rfl) 5⟩

/-- C2: `action: "remove"` on a like the user never made leaves the video
(likes counter, `userLikes`, `userDislikes`) entirely unchanged, and issuing
`action: "like"` twice in succession yields the same video state and the
same likes count as issuing it once. -/
theorem like_remove_noop_and_idempotent (v : Video) (u : UserId)
    (hv : EngagementInv v) :
    (u ∉ v.userLikes → likeHandler "remove" u v = v) ∧
    likeHandler "like" u (likeHandler "like" u v) = likeHandler "like" u v ∧
    (likeHandler "like" u (likeHandler "like" u v)).likes =
      (likeHandler "like" u v).likes := by
  obtain ⟨hL, hD, hLD⟩ := hv
  have hnd : u ∉ (likeHandler "like" u v).userDislikes :=
    not_mem_userDislikes_after_like u v hD
  have hml : u ∈ (likeHandler "like" u v).userLikes :=
    mem_userLikes_after_like u v
  have hidem : likeHandler "like" u (likeHandler "like" u v) =
      likeHandler "like" u v := by
    rw [likeHandler_add_char "like" u (likeHandler "like" u v) (by decide)]
    simp [hml, hnd]
  refine ⟨?_, hidem, by rw [hidem]⟩
  intro hm
  rw [likeHandler_remove_char]
  simp [hm]

/-- Witness for C2 at a concrete video (empty engagement arrays) and user
id 5. -/
theorem like_remove_noop_and_idempotent_witness :
    EngagementInv sampleVideo ∧
    ((5 ∉ sampleVideo.userLikes →
        likeHandler "remove" 5 sampleVideo = sampleVideo) ∧
    likeHandler "like" 5 (likeHandler "like" 5 sampleVideo) =
      likeHandler "like" 5 sampleVideo ∧
    (likeHandler "like" 5 (likeHandler "like" 5 sampleVideo)).likes =
      (likeHandler "like" 5 sampleVideo).likes) :=
  ⟨⟨List.nodup_nil, List.nodup_nil, by simp [sampleVideo]⟩,
    like_remove_noop_and_idempotent sampleVideo 5
      ⟨List.nodup_nil, List.nodup_nil, by simp [sampleVideo]⟩⟩

/-! ## Channels (`backend/models/Channel.js`, `backend/routes/channels.js`) -/

/-- The Channel document, from `backend/models/Channel.js`. -/
structure Channel where
  cid : ChannelId
  channelName : String
  owner : UserId
  description : String
  channelBanner : String
  subscribers : Int
  videos : List VideoId
  category : String
  deriving Repr, DecidableEq

/-- Schema default for `channelBanner` in `backend/models/Channel.js`. -/
def defaultBanner : String := "https://example.com/banners/default_banner.png"

/-- `Channel.findOne({ owner, channelName })`: first channel in the
collection with this owner and name. -/
def findOwnerName (db : List Channel) (owner : UserId) (name : String) :
    Option Channel :=
  db.find? (fun c => c.owner == owner && c.channelName == name)

/-- `Channel.findById(id)`. -/
def findChannelById (db : List Channel) (cid : ChannelId) : Option Channel :=
  db.find? (fun c => c.cid == cid)

/-- Handler body of `POST /api/channels/create` (`backend/routes/channels.js`)
after validation: reject with 400 when the caller already has a channel with
this name, otherwise persist a new channel (banner falls back to the schema
default when not supplied).  The push of the new channel id onto the owning
user's `channels` array touches the User collection only and is not
modelled here.  Result: HTTP status and the channel collection after the
request. -/
def createChannel (caller : UserId) (newId : ChannelId)
    (channelName description category : String)
    (channelBanner : Option String) (db : List Channel) :
    Nat × List Channel :=
  match findOwnerName db caller channelName with
  | some _ => (400, db)
  | none =>
      (201, db ++ [{ cid := newId, channelName := channelName,
                     owner := caller, description := description,
                     channelBanner := channelBanner.getD defaultBanner,
                     subscribers := 0, videos := [], category := category }])

/-- The single-document effect of
`Channel.findByIdAndUpdate(id, { channelName, description, category,
channelBanner: channelBanner || channel.channelBanner })`: the document
whose `_id` matches is overwritten in those four fields, every other
document is untouched. -/
def applyChannelUpdate (cid : ChannelId)
    (channelName description category : String)
    (channelBanner : Option String) (c : Channel) : Channel :=
  if c.cid = cid then
    { c with channelName := channelName, description := description,
             category := category,
             channelBanner := channelBanner.getD c.channelBanner }
  else c

/-- Handler body of `PUT /api/channels/:id` (`backend/routes/channels.js`)
after validation: 404 when the channel does not exist, 403 when the caller
is not the owner, 400 when renaming to a channel name already used by
another channel (different `_id`) of the same owner, otherwise the update
is applied.  Result: HTTP status and the channel collection after the
request. -/
def updateChannel (caller : UserId) (cid : ChannelId)
    (channelName description category : String)
    (channelBanner : Option String) (db : List Channel) :
    Nat × List Channel :=
  match findChannelById db cid with
  | none => (404, db)
  | some channel =>
      if channel.owner ≠ caller then (403, db)
      else if channelName ≠ channel.channelName ∧
          (db.find? (fun c => c.owner == caller &&
            c.channelName == channelName && c.cid != cid)).isSome then
        (400, db)
      else
        (200, db.map (applyChannelUpdate cid channelName description
          category channelBanner))

/-- The channel-collection invariant: document ids are unique, and no two
distinct channels of the same owner share a `channelName`. -/
def ChannelInv (db : List Channel) : Prop :=
  (db.map Channel.cid).Nodup ∧
    db.Pairwise (fun a b => a.owner = b.owner → a.channelName ≠ b.channelName)

/-- Channel collections reachable through the create/update endpoints from
the empty collection; create steps use a fresh document id, as Mongo does. -/
inductive ChannelReachable : List Channel → Prop where
  | init : ChannelReachable []
  | create (caller : UserId) (newId : ChannelId)
      (name desc cat : String) (banner : Option String) {db : List Channel} :
      newId ∉ db.map Channel.cid → ChannelReachable db →
      ChannelReachable (createChannel caller newId name desc cat banner db).2
  | update (caller : UserId) (cid : ChannelId)
      (name desc cat : String) (banner : Option String) {db : List Channel} :
      ChannelReachable db →
      ChannelReachable (updateChannel caller cid name desc cat banner db).2

theorem applyChannelUpdate_cid (cid : ChannelId)
    (name desc cat : String) (banner : Option String) (c : Channel) :
    (applyChannelUpdate cid name desc cat banner c).cid = c.cid := by
  unfold applyChannelUpdate
  by_cases h : c.cid = cid <;> simp [h]

theorem createChannel_inv (caller : UserId) (newId : ChannelId)
    (name desc cat : String) (banner : Option String) (db : List Channel)
    (hfresh : newId ∉ db.map Channel.cid) (h : ChannelInv db) :
    ChannelInv (createChannel caller newId name desc cat banner db).2 := by
  obtain ⟨hcid, hname⟩ := h
  unfold createChannel
  cases hf : findOwnerName db caller name with
  | some c => exact ⟨hcid, hname⟩
  | none =>
    have hno : ∀ c ∈ db, ¬(c.owner = caller ∧ c.channelName = name) := by
      intro c hc hcn
      have hp := List.find?_eq_none.1 hf c hc
      simp [hcn.1, hcn.2] at hp
    constructor
    · rw [List.map_append]
      refine List.Nodup.append hcid (List.nodup_singleton _) ?_
      intro x hx hx'
      simp only [List.map_cons, List.map_nil, List.mem_singleton] at hx'
      exact hfresh (hx' ▸ hx)
    · rw [List.pairwise_append]
      refine ⟨hname, by simp, ?_⟩
      intro a ha b hb
      simp only [List.mem_singleton] at hb
      subst hb
      intro howner heq
      exact hno a ha ⟨howner, heq⟩

theorem updateChannel_inv (caller : UserId) (cid : ChannelId)
    (name desc cat : String) (banner : Option String) (db : List Channel)
    (h : ChannelInv db) :
    ChannelInv (updateChannel caller cid name desc cat banner db).2 := by
  obtain ⟨hcid, hname⟩ := h
  unfold updateChannel
  cases hf : findChannelById db cid with
  | none => exact ⟨hcid, hname⟩
  | some channel =>
    have hchmem : channel ∈ db := List.mem_of_find?_eq_some hf
    have hchcid : channel.cid = cid := by
      have := List.find?_some hf
      simpa using this
    dsimp only
    split_ifs with h1 h2
    · exact ⟨hcid, hname⟩
    · exact ⟨hcid, hname⟩
    · push_neg at h1
      have hmapcid : (db.map (applyChannelUpdate cid name desc cat
          banner)).map Channel.cid = db.map Channel.cid := by
        rw [List.map_map]
        exact List.map_congr_left
          (fun a _ => applyChannelUpdate_cid cid name desc cat banner a)
      constructor
      · rw [hmapcid]
        exact hcid
      · rw [List.pairwise_map]
        have hcidpair : db.Pairwise (fun a b => a.cid ≠ b.cid) := by
          have := List.pairwise_map.1 (hcid : (db.map Channel.cid).Nodup)
          exact this
        refine List.Pairwise.imp_of_mem ?_ (hcidpair.and hname)
        intro a b ha hb hab howner
        by_cases hA : a.cid = cid <;> by_cases hB : b.cid = cid
        · exact absurd (hA.trans hB.symm) hab.1
        · have haeq : a = channel :=
            List.inj_on_of_nodup_map hcid ha hchmem (by rw [hA, hchcid])
          simp only [applyChannelUpdate, hA, hB, if_true, if_false] at howner ⊢
          by_cases hrn : name = channel.channelName
          · rw [hrn, ← haeq]
            exact hab.2 (by simpa [applyChannelUpdate, hA, hB] using howner)
          · have hfn : db.find? (fun c => c.owner == caller &&
                c.channelName == name && c.cid != cid) = none := by
              rcases not_and_or.1 h2 with hc | hc
              · exact absurd (not_not.1 hc) hrn
              · exact Option.not_isSome_iff_eq_none.1 hc
            have hb' := List.find?_eq_none.1 hfn b hb
            intro hbn
            have hbo : b.owner = caller := by
              rw [← howner, haeq, h1]
            exact hb' (by simp [hbo, hbn.symm, hB])
        · have hbeq : b = channel :=
            List.inj_on_of_nodup_map hcid hb hchmem (by rw [hB, hchcid])
          simp only [applyChannelUpdate, hA, hB, if_true, if_false]
            at howner ⊢
          by_cases hrn : name = channel.channelName
          · rw [hrn, ← hbeq]
            exact hab.2 (by simpa [applyChannelUpdate, hA, hB] using howner)
          · have hfn : db.find? (fun c => c.owner == caller &&
                c.channelName == name && c.cid != cid) = none := by
              rcases not_and_or.1 h2 with hc | hc
              · exact absurd (not_not.1 hc) hrn
              · exact Option.not_isSome_iff_eq_none.1 hc
            have ha' := List.find?_eq_none.1 hfn a ha
            intro han
            have hao : a.owner = caller := by
              rw [howner, hbeq, h1]
            exact ha' (by simp [hao, han, hA])
        · simp only [applyChannelUpdate, hA, hB, if_false] at howner ⊢
          exact hab.2 howner

theorem channelReachable_inv {db : List Channel}
    (h : ChannelReachable db) : ChannelInv db := by
  induction h with
  | init => exact ⟨List.nodup_nil, List.Pairwise.nil⟩
  | create caller newId name desc cat banner hfresh _ ih =>
    exact createChannel_inv caller newId name desc cat banner _ hfresh ih
  | update caller cid name desc cat banner _ ih =>
    exact updateChannel_inv caller cid name desc cat banner _ ih

/-- A sample existing channel for concrete evaluation. -/
def travelChannel : Channel :=
  { cid := 10, channelName := "Alice Vlogs", owner := 3,
    description := "travel vlogs", channelBanner := defaultBanner,
    subscribers := 0, videos := [], category := "Travel" }

/-- A second channel of the same owner, for the rename scenario. -/
def cookingChannel : Channel :=
  { cid := 20, channelName := "Alice Cooks", owner := 3,
    description := "cooking", channelBanner := defaultBanner,
    subscribers := 0, videos := [], category := "Food" }

/-- C3: creating a channel whose (owner, channelName) pair already exists
responds 400 and leaves the collection unchanged; updating a channel to a
name already used by another channel of the same owner responds 400 and
leaves the collection unchanged; and in every collection reachable through
these endpoints no two distinct channels of one owner share a name. -/
theorem channel_name_unique_per_owner :
    (∀ (db : List Channel) (caller : UserId) (newId : ChannelId)
        (name desc cat : String) (banner : Option String),
      (∃ c ∈ db, c.owner = caller ∧ c.channelName = name) →
      createChannel caller newId name desc cat banner db = (400, db)) ∧
    (∀ (db : List Channel) (caller : UserId) (cid : ChannelId)
        (name desc cat : String) (banner : Option String)
        (channel : Channel),
      findChannelById db cid = some channel → channel.owner = caller →
      name ≠ channel.channelName →
      (∃ c ∈ db, c.cid ≠ cid ∧ c.owner = caller ∧ c.channelName = name) →
      updateChannel caller cid name desc cat banner db = (400, db)) ∧
    (∀ db : List Channel, ChannelReachable db →
      db.Pairwise
        (fun a b => a.owner = b.owner → a.channelName ≠ b.channelName)) := by
  refine ⟨?_, ?_, ?_⟩
  · intro db caller newId name desc cat banner hdup
    obtain ⟨c, hc, hco, hcn⟩ := hdup
    unfold createChannel
    cases hfind : findOwnerName db caller name with
    | some d => rfl
    | none =>
      exact absurd (by simp [hco, hcn])
        (List.find?_eq_none.1 hfind c hc)
  · intro db caller cid name desc cat banner channel hf how hneq hdup
    obtain ⟨c, hc, hccid, hco, hcn⟩ := hdup
    have hsome : (db.find? (fun c => c.owner == caller &&
        c.channelName == name && c.cid != cid)).isSome := by
      rw [List.find?_isSome]
      exact ⟨c, hc, by simp [hco, hcn, hccid]⟩
    unfold updateChannel
    rw [hf]
    dsimp only
    rw [if_neg (not_not.2 how), if_pos ⟨hneq, hsome⟩]
  · intro db h
    exact (channelReachable_inv h).2

/-- Witness for C3: duplicate create, duplicate rename, and a reachable
collection, at concrete channels. -/
theorem channel_name_unique_per_owner_witness :
    createChannel 3 11 "Alice Vlogs" "dup" "Travel" none [travelChannel] =
      (400, [travelChannel]) ∧
    updateChannel 3 20 "Alice Vlogs" "cooking" "Food" none
      [travelChannel, cookingChannel] =
      (400, [travelChannel, cookingChannel]) ∧
    List.Pairwise
      (fun a b : Channel => a.owner = b.owner → a.channelName ≠ b.channelName)
      ([] : List Channel) :=
  ⟨channel_name_unique_per_owner.1 [travelChannel] 3 11 "Alice Vlogs" "dup"
      "Travel" none ⟨travelChannel, by simp, rfl, rfl⟩,
    channel_name_unique_per_owner.2.1 [travelChannel, cookingChannel] 3 20
      "Alice Vlogs" "cooking" "Food" none cookingChannel rfl rfl (by decide)
      ⟨travelChannel, by simp, by decide, rfl, rfl⟩,
    channel_name_unique_per_owner.2.2 [] ChannelReachable.init⟩

/-! ## Users and authentication
(`backend/models/User.js`, `backend/routes/auth.js`,
`backend/middleware/auth.js`) -/

/-- The User document, from `backend/models/User.js`; `passwordHash` is the
stored (bcrypt-hashed) password. -/
structure UserRec where
  uid : UserId
  username : String
  email : String
  passwordHash : String
  avatar : String
  channels : List ChannelId
  deriving Repr, DecidableEq

/-- Schema default for `avatar` in `backend/models/User.js`. -/
def defaultAvatar : String := "https://example.com/avatar/default.png"

/-- Outcome of running an Express middleware on a request: either the
middleware responded itself (HTTP status and message; the downstream
handler never runs), or it called `next()` and the handler runs with the
given identity bound to `req.user` (`none` = no identity bound). -/
inductive MwOutcome where
  | respond (status : Nat) (message : String)
  | next (user : Option UserId)
  deriving Repr, DecidableEq

/-- `jwt.verify(token, secret)`: yields the decoded payload's `userId`, or
throws (signature invalid, token expired, malformed, ...), modelled as
`Except` carrying the thrown error's message. -/
abbrev JwtVerify := String → Except String UserId

/-- The required-auth middleware `auth` from
`backend/middleware/auth.js`: no token, a failed `jwt.verify`, or a decoded
user id that no longer resolves to a user all produce a 401 response
without reaching the handler; otherwise the handler runs with the user
bound.  `findUserById` models `User.findById(id).select('-password')`,
returning the user's id or `none` when the document is gone. -/
def auth (token : Option String) (verify : JwtVerify)
    (findUserById : UserId → Option UserId) : MwOutcome :=
  match token with
  | none =>
      MwOutcome.respond 401 "Access denied. No authentication token provided."
  | some t =>
      match verify t with
      | Except.error _ =>
          MwOutcome.respond 401 "Invalid or expired authentication token."
      | Except.ok uid =>
          match findUserById uid with
          | none =>
              MwOutcome.respond 401 "Invalid token. User no longer exists."
          | some u => MwOutcome.next (some u)

/-- The optional-auth middleware `optionalAuth` from
`backend/middleware/auth.js`: always calls `next()`; `req.user` is bound
only when a token is present, verifies, and resolves to an existing user
(a vanished user leaves `req.user` null, and a verify error is swallowed
by the catch). -/
def optionalAuth (token : Option String) (verify : JwtVerify)
    (findUserById : UserId → Option UserId) : MwOutcome :=
  match token with
  | none => MwOutcome.next none
  | some t =>
      match verify t with
      | Except.error _ => MwOutcome.next none
      | Except.ok uid => MwOutcome.next (findUserById uid)

/-- Successful-login response payload of `POST /api/auth/login`: the signed
token plus the non-sensitive user projection. -/
structure LoginPayload where
  token : String
  userId : UserId
  username : String
  email : String
  avatar : String
  channels : List ChannelId
  deriving Repr, DecidableEq

/-- Handler body of `POST /api/auth/login` (`backend/routes/auth.js`) after
validation: `User.findOne({ email })`, then `user.comparePassword`
(bcrypt comparison, modelled by `checkPw`); a missing user and a failed
comparison produce the same generic 400 response; success signs a token
(`sign` models `generateToken`) and returns the user projection.  Result:
HTTP status, message, and the optional success payload. -/
def login (db : List UserRec) (checkPw : UserRec → String → Bool)
    (sign : UserId → String) (email password : String) :
    Nat × String × Option LoginPayload :=
  match db.find? (fun u => u.email == email) with
  | none => (400, "Invalid email or password", none)
  | some user =>
      if checkPw user password then
        (200, "Login successful",
          some { token := sign user.uid, userId := user.uid,
                 username := user.username, email := user.email,
                 avatar := user.avatar, channels := user.channels })
      else (400, "Invalid email or password", none)

/-- Handler body of `POST /api/auth/signup` (`backend/routes/auth.js`)
after validation: a single combined existence query
`User.findOne({ $or: [{ email }, { username }] })`; when it returns a user,
that user's email is compared first, then its username, each rejecting with
its specific 400 message; otherwise a new user is persisted (the pre-save
hook hashes the password, modelled by `hash`).  The source falls through to
the create when the returned user matches neither field exactly; that
branch is kept as written (it is unreachable for an exact-match query).
Result: (status, message) and the user collection after the request. -/
def signup (db : List UserRec) (hash : String → String) (newUid : UserId)
    (username email password : String) :
    (Nat × String) × List UserRec :=
  let created : UserRec :=
    { uid := newUid, username := username, email := email,
      passwordHash := hash password, avatar := defaultAvatar,
      channels := [] }
  match db.find? (fun u => u.email == email || u.username == username) with
  | some existingUser =>
      if existingUser.email = email then
        ((400, "Email already registered"), db)
      else if existingUser.username = username then
        ((400, "Username already taken"), db)
      else
        ((201, "User registered successfully. Please login."),
          db ++ [created])
  | none =>
      ((201, "User registered successfully. Please login."),
        db ++ [created])

/-- C5: the required-auth middleware responds 401 and never reaches the
handler when the token is missing, fails verification (invalid or
expired), or decodes to a user id with no surviving user; the optional
middleware always reaches the handler, and on each of those failures it
reaches it with no identity bound. -/
theorem auth_middleware_spec (verify : JwtVerify)
    (findUserById : UserId → Option UserId) :
    (auth none verify findUserById =
      MwOutcome.respond 401
        "Access denied. No authentication token provided.") ∧
    (∀ t e, verify t = Except.error e →
      auth (some t) verify findUserById =
        MwOutcome.respond 401 "Invalid or expired authentication token.") ∧
    (∀ t uid, verify t = Except.ok uid → findUserById uid = none →
      auth (some t) verify findUserById =
        MwOutcome.respond 401 "Invalid token. User no longer exists.") ∧
    (∀ token, ∃ u,
      optionalAuth token verify findUserById = MwOutcome.next u) ∧
    (optionalAuth none verify findUserById = MwOutcome.next none) ∧
    (∀ t e, verify t = Except.error e →
      optionalAuth (some t) verify findUserById = MwOutcome.next none) ∧
    (∀ t uid, verify t = Except.ok uid → findUserById uid = none →
      optionalAuth (some t) verify findUserById = MwOutcome.next none) := by
  refine ⟨rfl, ?_, ?_, ?_, rfl, ?_, ?_⟩
  · intro t e he
    simp [auth, he]
  · intro t uid hv hu
    simp [auth, hv, hu]
  · intro token
    cases token with
    | none => exact ⟨none, rfl⟩
    | some t =>
      cases hv : verify t with
      | error e => exact ⟨none, by simp [optionalAuth, hv]⟩
      | ok uid => exact ⟨findUserById uid, by simp [optionalAuth, hv]⟩
  · intro t e he
    simp [optionalAuth, he]
  · intro t uid hv hu
    simp [optionalAuth, hv, hu]

/-- A concrete token verifier: `"good"` resolves to a live user, `"ghost"`
to a deleted user's id, everything else throws. -/
def sampleVerify : JwtVerify := fun t =>
  if t = "good" then Except.ok 3
  else if t = "ghost" then Except.ok 99
  else Except.error "jwt malformed"

/-- A concrete user lookup where only user 3 still exists. -/
def sampleFindUser : UserId → Option UserId := fun uid =>
  if uid = 3 then some 3 else none

/-- Witness for C5 at the concrete verifier and lookup. -/
theorem auth_middleware_spec_witness :
    (auth none sampleVerify sampleFindUser =
      MwOutcome.respond 401
        "Access denied. No authentication token provided.") ∧
    (sampleVerify "bad" = Except.error "jwt malformed" ∧
      auth (some "bad") sampleVerify sampleFindUser =
        MwOutcome.respond 401 "Invalid or expired authentication token.") ∧
    (sampleVerify "ghost" = Except.ok 99 ∧ sampleFindUser 99 = none ∧
      auth (some "ghost") sampleVerify sampleFindUser =
        MwOutcome.respond 401 "Invalid token. User no longer exists.") ∧
    (optionalAuth none sampleVerify sampleFindUser = MwOutcome.next none) ∧
    (optionalAuth (some "bad") sampleVerify sampleFindUser =
      MwOutcome.next none) ∧
    (optionalAuth (some "ghost") sampleVerify sampleFindUser =
      MwOutcome.next none) :=
  ⟨(auth_middleware_spec sampleVerify sampleFindUser).1,
    ⟨rfl, (auth_middleware_spec sampleVerify sampleFindUser).2.1
      "bad" "jwt malformed" rfl⟩,
    ⟨rfl, rfl, (auth_middleware_spec sampleVerify sampleFindUser).2.2.1
      "ghost" 99 rfl rfl⟩,
    (auth_middleware_spec sampleVerify sampleFindUser).2.2.2.2.1,
    (auth_middleware_spec sampleVerify sampleFindUser).2.2.2.2.2.1
      "bad" "jwt malformed" rfl,
    (auth_middleware_spec sampleVerify sampleFindUser).2.2.2.2.2.2
      "ghost" 99 rfl rfl⟩

/-- C6: for a validated login request, the response when no user carries
the submitted email is identical — status, message and (absent) payload —
to the response when a user exists but the password comparison fails. -/
theorem login_no_enumeration (db1 db2 : List UserRec)
    (checkPw : UserRec → String → Bool) (sign : UserId → String)
    (email password : String) (user : UserRec)
    (h1 : db1.find? (fun u => u.email == email) = none)
    (h2 : db2.find? (fun u => u.email == email) = some user)
    (h3 : checkPw user password = false) :
    login db1 checkPw sign email password =
      login db2 checkPw sign email password ∧
    login db1 checkPw sign email password =
      (400, "Invalid email or password", none) := by
  have e1 : login db1 checkPw sign email password =
      (400, "Invalid email or password", none) := by
    simp [login, h1]
  have e2 : login db2 checkPw sign email password =
      (400, "Invalid email or password", none) := by
    simp [login, h2, h3]
  exact ⟨e1.trans e2.symm, e1⟩

/-- A registered user for the login/signup scenarios. -/
def aliceUser : UserRec :=
  { uid := 3, username := "alice", email := "alice@x.com",
    passwordHash := "bcrypt-digest", avatar := defaultAvatar,
    channels := [10, 20] }

/-- Witness for C6: empty collection versus a collection holding alice,
same request, always-failing password comparison. -/
theorem login_no_enumeration_witness :
    ([] : List UserRec).find? (fun u => u.email == "alice@x.com") = none ∧
    [aliceUser].find? (fun u => u.email == "alice@x.com") = some aliceUser ∧
    (login [] (fun _ _ => false) (fun _ => "tok") "alice@x.com" "wrong" =
      login [aliceUser] (fun _ _ => false) (fun _ => "tok")
        "alice@x.com" "wrong" ∧
    login [] (fun _ _ => false) (fun _ => "tok") "alice@x.com" "wrong" =
      (400, "Invalid email or password", none)) :=
  ⟨rfl, rfl,
    login_no_enumeration [] [aliceUser] (fun _ _ => false) (fun _ => "tok")
      "alice@x.com" "wrong" aliceUser rfl rfl rfl⟩

/-- A user colliding on username in the signup scenario. -/
def bobUser : UserRec :=
  { uid := 7, username := "bob", email := "bob@x.com",
    passwordHash := "h1", avatar := defaultAvatar, channels := [] }

/-- A user colliding on email (stored after `bobUser`). -/
def annaUser : UserRec :=
  { uid := 8, username := "carol", email := "anna@x.com",
    passwordHash := "h2", avatar := defaultAvatar, channels := [] }

/-- Counterexample to C7: a user with the submitted email exists
(`annaUser`), yet the handler reports the username collision, because the
combined `$or` query returns the username-colliding `bobUser`, stored
first, and that user's email check fails. -/
theorem signup_email_priority_counterexample :
    (∃ u ∈ [bobUser, annaUser], u.email = "anna@x.com") ∧
    (signup [bobUser, annaUser] (fun p => p) 99 "bob" "anna@x.com"
        "secret1").1 = (400, "Username already taken") :=
  ⟨⟨annaUser, by simp, rfl⟩, rfl⟩

/-- C7 amended: the rejection message is decided by the single user the
combined query returns (the first stored user matching either field): its
email is compared first, then its username; both rejections persist no new
user, and when no user matches either field the user is persisted and the
handler responds 201. -/
theorem signup_spec (db : List UserRec) (hash : String → String)
    (newUid : UserId) (username email password : String) :
    (∀ ex,
      db.find? (fun u => u.email == email || u.username == username) =
        some ex →
      (ex.email = email →
        signup db hash newUid username email password =
          ((400, "Email already registered"), db)) ∧
      (ex.email ≠ email → ex.username = username →
        signup db hash newUid username email password =
          ((400, "Username already taken"), db))) ∧
    (db.find? (fun u => u.email == email || u.username == username) =
        none →
      signup db hash newUid username email password =
        ((201, "User registered successfully. Please login."),
          db ++ [{ uid := newUid, username := username, email := email,
                   passwordHash := hash password, avatar := defaultAvatar,
                   channels := [] }])) := by
  constructor
  · intro ex hex
    constructor
    · intro he
      simp [signup, hex, he]
    · intro hne hu
      simp [signup, hex, hne, hu]
  · intro hnone
    simp [signup, hnone]

/-- Witness for C7's amended claim: an email rejection, a username
rejection and one successful signup, at concrete collections. -/
theorem signup_spec_witness :
    ([annaUser].find?
        (fun u => u.email == "anna@x.com" || u.username == "zed") =
      some annaUser ∧
      signup [annaUser] (fun p => p) 99 "zed" "anna@x.com" "secret1" =
        ((400, "Email already registered"), [annaUser])) ∧
    ([bobUser].find?
        (fun u => u.email == "new@x.com" || u.username == "bob") =
      some bobUser ∧
      signup [bobUser] (fun p => p) 99 "bob" "new@x.com" "secret1" =
        ((400, "Username already taken"), [bobUser])) ∧
    (([] : List UserRec).find?
        (fun u => u.email == "new@x.com" || u.username == "zed") = none ∧
      signup [] (fun p => p) 99 "zed" "new@x.com" "secret1" =
        ((201, "User registered successfully. Please login."),
          [{ uid := 99, username := "zed", email := "new@x.com",
             passwordHash := "secret1", avatar := defaultAvatar,
             channels := [] }])) :=
  ⟨⟨rfl, ((signup_spec [annaUser] (fun p => p) 99 "zed"
      "anna@x.com" "secret1").1 annaUser rfl).1 rfl⟩,
    ⟨rfl, ((signup_spec [bobUser] (fun p => p) 99 "bob"
      "new@x.com" "secret1").1 bobUser rfl).2 (by decide) rfl⟩,
    ⟨rfl, (signup_spec [] (fun p => p) 99 "zed"
      "new@x.com" "secret1").2 rfl⟩⟩

/-! ## Video upload, views, update, delete (`backend/routes/videos.js`) -/

/-- JS `n.toString().padStart(2, '0')` on the small naturals the duration
generator produces. -/
def pad2 (n : Nat) : String :=
  if n < 10 then "0" ++ toString n else toString n

/-- `generateDuration` from the upload handler:
`minutes = Math.floor(Math.random() * 14) + 2` and
`seconds = Math.floor(Math.random() * 60)`; the two floor-of-uniform draws
(`0..13` and `0..59`) enter as `r14` and `r60`.  `Math.abs` of the already
nonnegative values is the identity; the result is formatted `MM:SS` with
two-digit padding. -/
def generateDuration (r14 r60 : Nat) : String :=
  pad2 (r14 + 2) ++ ":" ++ pad2 r60

/-- Body of a `POST /api/videos` upload request after validation.  `tags`
and `duration` are optional body fields; the handler destructures only
`title, description, videoUrl, thumbnailUrl, channelId, category, tags`
and never reads `duration`. -/
structure VideoReq where
  title : String
  description : String
  videoUrl : String
  thumbnailUrl : String
  channelId : ChannelId
  category : String
  tags : Option (List String)
  duration : Option String
  deriving Repr, DecidableEq

/-- Handler body of `POST /api/videos` after validation: 404 when the
target channel is missing, 403 when the caller does not own it; otherwise
a video is persisted whose `duration` is `generateDuration()` and whose
counters and membership arrays hold the schema defaults, and the new id is
pushed onto the channel's `videos` array.  Result: status, the video of
the 201 response, and both collections after the request. -/
def createVideo (caller : UserId) (newId : VideoId) (req : VideoReq)
    (r14 r60 : Nat) (channels : List Channel) (videos : List Video) :
    Nat × Option Video × List Channel × List Video :=
  match findChannelById channels req.channelId with
  | none => (404, none, channels, videos)
  | some channel =>
      if channel.owner ≠ caller then (403, none, channels, videos)
      else
        let video : Video :=
          { vid := newId, title := req.title,
            description := req.description, videoUrl := req.videoUrl,
            thumbnailUrl := req.thumbnailUrl, channelId := req.channelId,
            uploader := caller, views := 0, likes := 0, dislikes := 0,
            userLikes := [], userDislikes := [], category := req.category,
            duration := generateDuration r14 r60,
            tags := req.tags.getD [] }
        (201, some video,
          channels.map (fun c =>
            if c.cid = req.channelId then
              { c with videos := c.videos ++ [newId] }
            else c),
          videos ++ [video])

/-- Handler body of `POST /api/videos/:id/view` on the found video:
`views` is incremented only when an identity is bound, and the response is
`{ success: true, views }` with the video's (possibly updated) count. -/
def viewHandler (user : Option UserId) (video : Video) :
    Video × (Bool × Int) :=
  if user.isSome then
    let video' := { video with views := video.views + 1 }
    (video', (true, video'.views))
  else
    (video, (true, video.views))

/-- `n` successive authenticated calls of the view endpoint. -/
def viewCalls (u : UserId) : Nat → Video → Video
  | 0, v => v
  | n + 1, v => (viewHandler (some u) (viewCalls u n v)).1

/-- The database writes the delete handler issues. -/
inductive DbWrite where
  | pullVideoFromChannel (cid : ChannelId) (vid : VideoId)
  | deleteVideoDoc (vid : VideoId)
  deriving Repr, DecidableEq

/-- Effect of one write on the (channels, videos) collections:
`Channel.findByIdAndUpdate(cid, { $pull: { videos: vid } })` removes every
occurrence of the id from that channel's `videos` array;
`Video.findByIdAndDelete(vid)` removes the video document. -/
def applyWrite (st : List Channel × List Video) :
    DbWrite → List Channel × List Video
  | DbWrite.pullVideoFromChannel cid vid =>
      (st.1.map (fun c =>
        if c.cid = cid then
          { c with videos := c.videos.filter (fun x => x ≠ vid) }
        else c), st.2)
  | DbWrite.deleteVideoDoc vid =>
      (st.1, st.2.filter (fun v => v.vid ≠ vid))

/-- Handler body of `DELETE /api/videos/:id`: 404 when the video is
missing, 403 when the caller is not the uploader; otherwise the handler
first pulls the video id from the owning channel's `videos` array and then
deletes the video document.  Result: status, the ordered write sequence it
issued, and the collections after executing the writes in order. -/
def deleteVideo (caller : UserId) (vidId : VideoId)
    (channels : List Channel) (videos : List Video) :
    Nat × List DbWrite × List Channel × List Video :=
  match videos.find? (fun v => v.vid == vidId) with
  | none => (404, [], channels, videos)
  | some video =>
      if video.uploader ≠ caller then (403, [], channels, videos)
      else
        let writes := [DbWrite.pullVideoFromChannel video.channelId vidId,
                       DbWrite.deleteVideoDoc vidId]
        let st := writes.foldl applyWrite (channels, videos)
        (200, writes, st.1, st.2)

/-- The single-document effect of `Video.findByIdAndUpdate(id, { title,
description, category, tags: tags || [] })`: an omitted (or null) `tags`
body field stores the empty list. -/
def applyVideoUpdate (vidId : VideoId)
    (title description category : String) (tags : Option (List String))
    (v : Video) : Video :=
  if v.vid = vidId then
    { v with title := title, description := description,
             category := category, tags := tags.getD [] }
  else v

/-- Handler body of `PUT /api/videos/:id` after validation: 404 when the
video is missing, 403 when the caller is not the uploader, otherwise the
four editable fields are overwritten. -/
def updateVideo (caller : UserId) (vidId : VideoId)
    (title description category : String) (tags : Option (List String))
    (videos : List Video) : Nat × List Video :=
  match videos.find? (fun v => v.vid == vidId) with
  | none => (404, videos)
  | some video =>
      if video.uploader ≠ caller then (403, videos)
      else
        (200, videos.map
          (applyVideoUpdate vidId title description category tags))

/-- An upload request that supplies a duration the generator can never
produce. -/
def uploadReq : VideoReq :=
  { title := "trip", description := "alps",
    videoUrl := "https://cdn.example/v9",
    thumbnailUrl := "https://cdn.example/t9", channelId := 10,
    category := "Travel", tags := none, duration := some "59:59" }

/-- Counterexample to C4: the request supplies duration "59:59", the
upload succeeds, yet every video stored by the request carries the
freshly generated "02:00" (draws 0/0) — the supplied value is not
stored. -/
theorem video_duration_counterexample :
    uploadReq.duration = some "59:59" ∧
    (createVideo 3 30 uploadReq 0 0 [travelChannel] []).1 = 201 ∧
    ∀ v ∈ (createVideo 3 30 uploadReq 0 0 [travelChannel] []).2.2.2,
      v.duration = "02:00" ∧ v.duration ≠ "59:59" := by
  refine ⟨rfl, rfl, ?_⟩
  decide

/-- C4 amended: the stored duration is always the synthesized one —
formatted `MM:SS` from the uniform draws, with minutes in 2..15 and
seconds in 0..59 — and the request's duration field is immaterial to the
entire result of the handler; a supplied duration is never stored. -/
theorem video_duration_always_generated (caller : UserId) (newId : VideoId)
    (req : VideoReq) (r14 r60 : Nat) (h14 : r14 < 14) (h60 : r60 < 60)
    (channels : List Channel) (videos : List Video) (channel : Channel)
    (hf : findChannelById channels req.channelId = some channel)
    (how : channel.owner = caller) :
    (∃ v, (createVideo caller newId req r14 r60 channels videos).2.1 =
        some v ∧
      v.duration = generateDuration r14 r60 ∧
      ∃ m s, 2 ≤ m ∧ m ≤ 15 ∧ s ≤ 59 ∧
        v.duration = pad2 m ++ ":" ++ pad2 s) ∧
    ∀ d : Option String,
      createVideo caller newId { req with duration := d } r14 r60
          channels videos =
        createVideo caller newId req r14 r60 channels videos := by
  constructor
  · unfold createVideo
    rw [hf]
    dsimp only
    rw [if_neg (not_not.2 how)]
    exact ⟨_, rfl, rfl, r14 + 2, r60, by omega, by omega, by omega, rfl⟩
  · intro d
    rfl

/-- Witness for C4's amended claim at a concrete request carrying a
duration, draws 0/0. -/
theorem video_duration_always_generated_witness :
    0 < 14 ∧ 0 < 60 ∧
    findChannelById [travelChannel] uploadReq.channelId =
      some travelChannel ∧
    travelChannel.owner = 3 ∧
    ((∃ v, (createVideo 3 30 uploadReq 0 0 [travelChannel] []).2.1 =
        some v ∧
      v.duration = generateDuration 0 0 ∧
      ∃ m s, 2 ≤ m ∧ m ≤ 15 ∧ s ≤ 59 ∧
        v.duration = pad2 m ++ ":" ++ pad2 s) ∧
    ∀ d : Option String,
      createVideo 3 30 { uploadReq with duration := d } 0 0
          [travelChannel] [] =
        createVideo 3 30 uploadReq 0 0 [travelChannel] []) :=
  ⟨by decide, by decide, rfl, rfl,
    video_duration_always_generated 3 30 uploadReq 0 0 (by decide)
      (by decide) [travelChannel] [] travelChannel rfl rfl⟩

/-- C8: the view endpoint increments the stored counter by exactly one
when an identity is bound and leaves it unchanged when none is, responding
success with the current count in both cases; `n` successive authenticated
calls add `n` (no idempotence). -/
theorem view_increment_spec (video : Video) (u : UserId) :
    ((viewHandler (some u) video).1.views = video.views + 1 ∧
      (viewHandler (some u) video).2 = (true, video.views + 1)) ∧
    ((viewHandler none video).1 = video ∧
      (viewHandler none video).2 = (true, video.views)) ∧
    ∀ n : Nat, (viewCalls u n video).views = video.views + n := by
  refine ⟨⟨rfl, rfl⟩, ⟨rfl, rfl⟩, ?_⟩
  intro n
  induction n with
  | zero => simp [viewCalls]
  | succ k ih =>
    simp only [viewCalls, viewHandler, Option.isSome_some, if_true, ih]
    push_cast
    ring

/-- A stored video owned by user 3 in channel 10, with tags. -/
def taggedVideo : Video :=
  { vid := 30, title := "trip", description := "alps",
    videoUrl := "https://cdn.example/v9",
    thumbnailUrl := "https://cdn.example/t9", channelId := 10,
    uploader := 3, views := 4, likes := 1, dislikes := 0,
    userLikes := [5], userDislikes := [], category := "Travel",
    duration := "02:00", tags := ["alps", "travel"] }

/-- C9: a delete by the uploader issues the channel pull strictly before
the document deletion, and afterwards the video id is gone from the owning
channel's `videos` array, the video document is gone, and the channel
documents themselves all persist. -/
theorem delete_video_spec (caller : UserId) (vidId : VideoId)
    (channels : List Channel) (videos : List Video) (video : Video)
    (hf : videos.find? (fun v => v.vid == vidId) = some video)
    (how : video.uploader = caller) :
    (deleteVideo caller vidId channels videos).1 = 200 ∧
    (deleteVideo caller vidId channels videos).2.1 =
      [DbWrite.pullVideoFromChannel video.channelId vidId,
       DbWrite.deleteVideoDoc vidId] ∧
    (∀ c ∈ (deleteVideo caller vidId channels videos).2.2.1,
      c.cid = video.channelId → vidId ∉ c.videos) ∧
    (∀ v ∈ (deleteVideo caller vidId channels videos).2.2.2,
      v.vid ≠ vidId) ∧
    (deleteVideo caller vidId channels videos).2.2.1.map Channel.cid =
      channels.map Channel.cid := by
  unfold deleteVideo
  rw [hf]
  dsimp only
  rw [if_neg (not_not.2 how)]
  dsimp only [List.foldl, applyWrite]
  refine ⟨rfl, rfl, ?_, ?_, ?_⟩
  · intro c hc hcid
    obtain ⟨c0, hc0, rfl⟩ := List.mem_map.1 hc
    by_cases h : c0.cid = video.channelId
    · simp only [h, if_true]
      intro hmem
      have := (List.mem_filter.1 hmem).2
      simp at this
    · simp only [h, if_false] at hcid
  · intro v hv
    have := (List.mem_filter.1 hv).2
    simpa using this
  · rw [List.map_map]
    refine List.map_congr_left ?_
    intro c _
    by_cases h : c.cid = video.channelId <;> simp [h]

/-- Witness for C9 at a concrete channel/video pair. -/
theorem delete_video_spec_witness :
    [taggedVideo].find? (fun v => v.vid == 30) = some taggedVideo ∧
    taggedVideo.uploader = 3 ∧
    ((deleteVideo 3 30 [{ travelChannel with videos := [30] }]
        [taggedVideo]).1 = 200 ∧
    (deleteVideo 3 30 [{ travelChannel with videos := [30] }]
        [taggedVideo]).2.1 =
      [DbWrite.pullVideoFromChannel taggedVideo.channelId 30,
       DbWrite.deleteVideoDoc 30] ∧
    (∀ c ∈ (deleteVideo 3 30 [{ travelChannel with videos := [30] }]
        [taggedVideo]).2.2.1,
      c.cid = taggedVideo.channelId → 30 ∉ c.videos) ∧
    (∀ v ∈ (deleteVideo 3 30 [{ travelChannel with videos := [30] }]
        [taggedVideo]).2.2.2, v.vid ≠ 30) ∧
    (deleteVideo 3 30 [{ travelChannel with videos := [30] }]
        [taggedVideo]).2.2.1.map Channel.cid =
      [{ travelChannel with videos := [30] }].map Channel.cid) :=
  ⟨rfl, rfl,
    delete_video_spec 3 30 [{ travelChannel with videos := [30] }]
      [taggedVideo] taggedVideo rfl rfl⟩

/-- C10: an update by the uploader whose body omits `tags` (or carries a
null value) stores the empty list in the video's `tags`, whatever was
stored before; tags survive only when the request re-sends them. -/
theorem update_clears_omitted_tags (caller : UserId) (vidId : VideoId)
    (title desc cat : String) (videos : List Video) (video : Video)
    (hf : videos.find? (fun v => v.vid == vidId) = some video)
    (how : video.uploader = caller) :
    (∀ v' ∈ (updateVideo caller vidId title desc cat none videos).2,
      v'.vid = vidId → v'.tags = []) ∧
    (∀ ts : List String,
      ∀ v' ∈ (updateVideo caller vidId title desc cat (some ts) videos).2,
      v'.vid = vidId → v'.tags = ts) := by
  have hred : ∀ tg : Option (List String),
      (updateVideo caller vidId title desc cat tg videos).2 =
        videos.map (applyVideoUpdate vidId title desc cat tg) := by
    intro tg
    unfold updateVideo
    rw [hf]
    dsimp only
    rw [if_neg (not_not.2 how)]
  constructor
  · intro v' hv' hvid
    rw [hred none] at hv'
    obtain ⟨v0, hv0, rfl⟩ := List.mem_map.1 hv'
    unfold applyVideoUpdate at hvid ⊢
    by_cases h : v0.vid = vidId
    · simp [h]
    · simp only [h, if_false] at hvid
  · intro ts v' hv' hvid
    rw [hred (some ts)] at hv'
    obtain ⟨v0, hv0, rfl⟩ := List.mem_map.1 hv'
    unfold applyVideoUpdate at hvid ⊢
    by_cases h : v0.vid = vidId
    · simp [h]
    · simp only [h, if_false] at hvid

/-- Witness for C10 at a concrete video that carried tags. -/
theorem update_clears_omitted_tags_witness :
    [taggedVideo].find? (fun v => v.vid == 30) = some taggedVideo ∧
    taggedVideo.uploader = 3 ∧ taggedVideo.tags = ["alps", "travel"] ∧
    ((∀ v' ∈ (updateVideo 3 30 "trip" "alps" "Travel" none
        [taggedVideo]).2, v'.vid = 30 → v'.tags = []) ∧
    (∀ ts : List String,
      ∀ v' ∈ (updateVideo 3 30 "trip" "alps" "Travel" (some ts)
        [taggedVideo]).2, v'.vid = 30 → v'.tags = ts)) :=
  ⟨rfl, rfl, rfl,
    update_clears_omitted_tags 3 30 "trip" "alps" "Travel"
      [taggedVideo] taggedVideo rfl rfl⟩

end YtClone
